import Mathlib

/-!
Verification development for the rust-lpwan LPWAN stack: a shallow embedding of
the 6LoWPAN header codecs (`src/sixlo/headers.rs`), the fragmentation manager
(`src/sixlo/frag.rs`) and the 802.15.4 MAC engine (`src/mac_802154/mod.rs`,
`packet.rs`, `config.rs`), together with theorems settling the specification
claims about them.

Machine integers are modelled as `Nat` (with explicit `% 256` / `% 65536` at the
points where the Rust code casts), byte buffers as `List Nat`, and fallible or
panicking paths as `Option`.
-/

set_option maxRecDepth 8000

namespace Lpwan

/-- MAC address (`ieee802154::mac::Address`, an external dependency of the
repo): tagged union over `None`, `Short(PanId, ShortAddress)` (both u16) and
`Extended(PanId, ExtendedAddress)` (u16, u64). -/
inductive Address where
  | none
  | short (pan : Nat) (addr : Nat)
  | extended (pan : Nat) (addr : Nat)
deriving DecidableEq, Repr

/-- Well-formedness of an address: the fields fit their machine widths. -/
def Address.wf : Address → Prop
  | .none => True
  | .short p s => p < 65536 ∧ s < 65536
  | .extended p e => p < 65536 ∧ e < 2 ^ 64

/-- Byte read `buff[i]`; the Rust code indexes the slice directly and callers
guarantee the index is in range (out of range would panic). -/
def getB (buff : List Nat) (i : Nat) : Nat := buff.getD i 0

/-- Byte write `buff[i] = v`. -/
def setB (buff : List Nat) (i v : Nat) : List Nat := buff.set i v

/-- Byte or-assign `buff[i] |= v`. -/
def orB (buff : List Nat) (i v : Nat) : List Nat :=
  buff.set i (Nat.lor (buff.getD i 0) v)

/-- `byteorder::LittleEndian::write_u16(&mut buff[o..], v)`: low byte first. -/
def writeU16LE (buff : List Nat) (o v : Nat) : List Nat :=
  setB (setB buff o (v % 256)) (o + 1) (v / 256 % 256)

/-- `ShortAddress::decode` value read: two little-endian bytes at offset `o`
(`ieee802154` crate). -/
def readU16LE (buff : List Nat) (o : Nat) : Nat :=
  getB buff o + 256 * getB buff (o + 1)

/-- `ExtendedAddress::encode`: eight little-endian bytes at offset `o`
(`ieee802154` crate). -/
def writeU64LE (buff : List Nat) (o v : Nat) : List Nat :=
  setB (setB (setB (setB (setB (setB (setB (setB buff
    o (v % 256))
    (o + 1) (v / 256 % 256))
    (o + 2) (v / 256 ^ 2 % 256))
    (o + 3) (v / 256 ^ 3 % 256))
    (o + 4) (v / 256 ^ 4 % 256))
    (o + 5) (v / 256 ^ 5 % 256))
    (o + 6) (v / 256 ^ 6 % 256))
    (o + 7) (v / 256 ^ 7 % 256)

/-- `ExtendedAddress::decode` value read: eight little-endian bytes at `o`. -/
def readU64LE (buff : List Nat) (o : Nat) : Nat :=
  getB buff o + 256 * getB buff (o + 1) + 256 ^ 2 * getB buff (o + 2) +
  256 ^ 3 * getB buff (o + 3) + 256 ^ 4 * getB buff (o + 4) +
  256 ^ 5 * getB buff (o + 5) + 256 ^ 6 * getB buff (o + 6) +
  256 ^ 7 * getB buff (o + 7)

/-! ## 6LoWPAN fragmentation header (`FragHeader`, src/sixlo/headers.rs:432-515) -/

/-- Fragmentation header per RFC 4944 section 5.3: `datagram_size : u16`
(11 bits used), `datagram_tag : u16`, `datagram_offset : Option<u8>`. -/
structure FragHeader where
  datagram_size : Nat
  datagram_tag : Nat
  datagram_offset : Option Nat
deriving DecidableEq, Repr

/-- Field widths of a fragmentation header as produced by the stack. -/
def FragHeader.wf (h : FragHeader) : Prop :=
  h.datagram_size < 2 ^ 11 ∧ h.datagram_tag < 2 ^ 16 ∧
    (∀ o, h.datagram_offset = some o → o < 256)

/-- `FragHeader::encode` (src/sixlo/headers.rs:488-515).  Writes
`HeaderType::Frag = 0b11` plus the low 3 size bits shifted into byte 0, or-s the
high size bits into byte 1, writes the tag little-endian at bytes 2/3
(`LittleEndian::write_u16`), and for `Some(offset)` sets the FragN bit `0b100`
and writes the offset at byte 4.  Returns the updated buffer and the offset
(number of bytes written). -/
def FragHeader.encode (h : FragHeader) (buff : List Nat) : List Nat × Nat :=
  let buff := setB buff 0 3
  let buff := orB buff 0 (Nat.land h.datagram_size 7 <<< 5 % 256)
  let buff := orB buff 1 (h.datagram_size >>> 3 % 256)
  let buff := writeU16LE buff 2 h.datagram_tag
  match h.datagram_offset with
  | some o =>
    let buff := orB buff 0 4
    (setB buff 4 o, 5)
  | none => (orB buff 0 0, 4)

/-- `FragHeader::decode` (src/sixlo/headers.rs:454-486).  The header-type check
in the source is a TODO that raises no error.  Note the source computes the tag
as `(buff[2] as u16) | (buff[3] as u16) >> 8`: the second operand shifts an
already-widened byte right by 8, which is always zero. -/
def FragHeader.decode (buff : List Nat) : FragHeader × Nat :=
  let d := getB buff 0
  let datagram_size :=
    Nat.lor (Nat.land (getB buff 0) 0xE0 >>> 5) (getB buff 1 <<< 3)
  let datagram_tag := Nat.lor (getB buff 2) (getB buff 3 >>> 8)
  if Nat.land d 4 ≠ 0 then
    ({ datagram_size, datagram_tag, datagram_offset := some (getB buff 4) }, 5)
  else
    ({ datagram_size, datagram_tag, datagram_offset := none }, 4)

/-- Zero-initialised scratch buffer, as in the repo's `frag_header` test which
encodes into a zeroed array. -/
def zeros8 : List Nat := [0, 0, 0, 0, 0, 0, 0, 0]

/-- C1: for the fragmentation header `{size 100, tag 258, offset Some 8}` the
decode of the encode loses the tag's high byte: the round trip returns tag
`2 = 258 % 256` instead of `258`, because `FragHeader::decode` computes
`(buff[3] as u16) >> 8` (always zero) where `<< 8` is needed; the byte counts
still agree.  This contradicts the round-trip invariant the repo's own
`frag_header` test asserts (that test only uses tag 14 < 256). -/
theorem C1_frag_roundtrip_tag_lost :
    (FragHeader.decode (FragHeader.encode ⟨100, 258, some 8⟩ zeros8).1).1 ≠
        ⟨100, 258, some 8⟩ ∧
      (FragHeader.decode (FragHeader.encode ⟨100, 258, some 8⟩ zeros8).1).1 =
        ⟨100, 2, some 8⟩ ∧
      (FragHeader.decode (FragHeader.encode ⟨100, 258, some 8⟩ zeros8).1).2 =
        (FragHeader.encode ⟨100, 258, some 8⟩ zeros8).2 := by
  decide

/-- C5 counterexample: `FragHeader::encode` writes the 16-bit tag
little-endian, not big-endian.  For tag `258 = 0x0102` the claim puts the most
significant byte `0x01` at byte 2 and `0x02` at byte 3; the code produces bytes
`(0x02, 0x01)`. -/
theorem C5_tag_not_big_endian :
    getB (FragHeader.encode ⟨100, 258, some 8⟩ zeros8).1 2 = 2 ∧
      getB (FragHeader.encode ⟨100, 258, some 8⟩ zeros8).1 3 = 1 ∧
      ¬(getB (FragHeader.encode ⟨100, 258, some 8⟩ zeros8).1 2 = 258 / 256 ∧
        getB (FragHeader.encode ⟨100, 258, some 8⟩ zeros8).1 3 = 258 % 256) := by
  decide

/-- C5 (amended): `FragHeader::encode` writes the 16-bit datagram_tag into
bytes 2 and 3 of the output in little-endian order (least significant byte at
byte 2, most significant at byte 3), for every tag value. -/
theorem C5_tag_little_endian (h : FragHeader) (ht : h.datagram_tag < 65536) :
    getB (FragHeader.encode h zeros8).1 2 = h.datagram_tag % 256 ∧
      getB (FragHeader.encode h zeros8).1 3 = h.datagram_tag / 256 := by
  obtain ⟨s, t, o⟩ := h
  have ht2 : t < 65536 := ht
  cases o with
  | none => exact ⟨rfl, by show t / 256 % 256 = t / 256; omega⟩
  | some v => exact ⟨rfl, by show t / 256 % 256 = t / 256; omega⟩

/-- C5 witness: the little-endian byte layout at the concrete tag 958. -/
theorem C5_tag_little_endian_witness :
    getB (FragHeader.encode ⟨100, 958, none⟩ zeros8).1 2 = 958 % 256 ∧
      getB (FragHeader.encode ⟨100, 958, none⟩ zeros8).1 3 = 958 / 256 :=
  C5_tag_little_endian ⟨100, 958, none⟩ (by decide)

/-! ## 6LoWPAN mesh header (`MeshHeader`, src/sixlo/headers.rs:329-424) -/

/-- Mesh header per RFC 4944 section 5.2: `hops_left : u8` plus origin and
final addresses. -/
structure MeshHeader where
  hops_left : Nat
  origin_addr : Address
  final_addr : Address
deriving DecidableEq, Repr

/-- Well-formed mesh header: the origin is present (`Address::None` hits
`unreachable!()` in `encode`) and all fields fit their machine widths. -/
def MeshHeader.wf (h : MeshHeader) : Prop :=
  h.origin_addr ≠ .none ∧ h.hops_left < 256 ∧ h.origin_addr.wf ∧ h.final_addr.wf

/-- Encoded length in bytes of an address inside a mesh header: 2 for short,
8 for extended. -/
def Address.encLen : Address → Nat
  | .none => 0
  | .short _ _ => 2
  | .extended _ _ => 8

/-- `MeshHeader::encode` (src/sixlo/headers.rs:386-423).  Writes
`HeaderType::Mesh = 0b10` and `hops_left & 0x0F` into byte 0, then writes the
origin address (setting `HEADER_MESH_SHORT_V = 0b10` when it is short), and
then — the second `match` in the source is again on `self.origin_addr` — writes
the origin address a second time in the final-address position, again or-ing
the V bit for a short address and never setting
`HEADER_MESH_SHORT_F = 0b100`.  `Address::None` hits `unreachable!()`,
modelled as `none`. -/
def MeshHeader.encode (h : MeshHeader) (buff : List Nat) :
    Option (List Nat × Nat) :=
  let buff := setB buff 0 2
  let buff := orB buff 0 (Nat.land h.hops_left 15 <<< 4)
  match h.origin_addr with
  | .short _ s =>
    let buff := writeU16LE (orB buff 0 2) 1 s
    (match h.origin_addr with
     | .short _ s2 => some (writeU16LE (orB buff 0 2) 3 s2, 3 + 2)
     | .extended _ e2 => some (writeU64LE buff 3 e2, 3 + 8)
     | .none => none)
  | .extended _ e =>
    let buff := writeU64LE buff 1 e
    (match h.origin_addr with
     | .short _ s2 => some (writeU16LE (orB buff 0 2) 9 s2, 9 + 2)
     | .extended _ e2 => some (writeU64LE buff 9 e2, 9 + 8)
     | .none => none)
  | .none => none

/-- `MeshHeader::decode` (src/sixlo/headers.rs:342-384).  The header-type check
is a TODO that raises no error.  The origin is read as short when bit
`HEADER_MESH_SHORT_V = 0b10` of byte 0 is set — a bit that coincides with the
`HeaderType::Mesh` bit `encode` always sets — and the final address as short
when `HEADER_MESH_SHORT_F = 0b100` is set.  Decoded addresses carry `PanId(0)`.
Address reads running past the buffer fail with `NotEnoughBytes` (`none`). -/
def MeshHeader.decode (buff : List Nat) : Option (MeshHeader × Nat) :=
  let d := getB buff 0
  let hops_left := Nat.land (d >>> 4) 15
  if Nat.land d 2 ≠ 0 then
    if buff.length < 3 then none else
    let origin_addr : Address := .short 0 (readU16LE buff 1)
    if Nat.land d 4 ≠ 0 then
      if buff.length < 5 then none
      else some (⟨hops_left, origin_addr, .short 0 (readU16LE buff 3)⟩, 5)
    else
      if buff.length < 11 then none
      else some (⟨hops_left, origin_addr, .extended 0 (readU64LE buff 3)⟩, 11)
  else
    if buff.length < 9 then none else
    let origin_addr : Address := .extended 0 (readU64LE buff 1)
    if Nat.land d 4 ≠ 0 then
      if buff.length < 11 then none
      else some (⟨hops_left, origin_addr, .short 0 (readU16LE buff 9)⟩, 11)
    else
      if buff.length < 17 then none
      else some (⟨hops_left, origin_addr, .extended 0 (readU64LE buff 9)⟩, 17)

/-- Zero-initialised scratch buffer large enough for the largest mesh header
(1 + 8 + 8 bytes). -/
def zeros17 : List Nat := [0, 0, 0, 0, 0, 0, 0, 0, 0, 0, 0, 0, 0, 0, 0, 0, 0]

/-- Round trip of a mesh header through a zero-initialised buffer. -/
def meshRT (h : MeshHeader) : Option (MeshHeader × Nat) :=
  match MeshHeader.encode h zeros17 with
  | some (bs, _) => MeshHeader.decode bs
  | none => none

/-- Headers whose round trip through the buggy codec is the identity: short
origin with PAN 0, final address equal to the extended reassembly of the
duplicated origin bytes, and hops_left small enough to survive the 4-bit
mask. -/
def meshDegenerate (h : MeshHeader) : Prop :=
  match h.origin_addr with
  | .short 0 s => h.final_addr = .extended 0 s ∧ h.hops_left < 16
  | _ => False

instance (a : Address) : Decidable a.wf :=
  match a with
  | .none => isTrue trivial
  | .short p s => inferInstanceAs (Decidable (p < 65536 ∧ s < 65536))
  | .extended p e => inferInstanceAs (Decidable (p < 65536 ∧ e < 2 ^ 64))

instance (h : MeshHeader) : Decidable h.wf :=
  inferInstanceAs (Decidable (_ ∧ _ ∧ _ ∧ _))

instance (h : MeshHeader) : Decidable (meshDegenerate h) :=
  match hyp : h.origin_addr with
  | .short 0 s => by
    unfold meshDegenerate
    rw [hyp]
    exact inferInstanceAs (Decidable (_ ∧ _))
  | .short (p + 1) s => by
    unfold meshDegenerate
    rw [hyp]
    exact inferInstanceAs (Decidable False)
  | .extended p e => by
    unfold meshDegenerate
    rw [hyp]
    exact inferInstanceAs (Decidable False)
  | .none => by
    unfold meshDegenerate
    rw [hyp]
    exact inferInstanceAs (Decidable False)

theorem meshDegenerate_short_zero (hops s : Nat) (fin : Address) :
    meshDegenerate ⟨hops, .short 0 s, fin⟩ =
      (fin = .extended 0 s ∧ hops < 16) := rfl

theorem meshDegenerate_short_succ (hops p s : Nat) (fin : Address) :
    meshDegenerate ⟨hops, .short (p + 1) s, fin⟩ = False := rfl

theorem meshDegenerate_ext (hops p e : Nat) (fin : Address) :
    meshDegenerate ⟨hops, .extended p e, fin⟩ = False := rfl

theorem meshRT_eq (h : MeshHeader) (bs : List Nat) (n : Nat)
    (he : MeshHeader.encode h zeros17 = some (bs, n)) :
    meshRT h = MeshHeader.decode bs := by
  unfold meshRT
  rw [he]

theorem getB_cons_zero (a : Nat) (l : List Nat) : getB (a :: l) 0 = a := rfl

theorem getB_cons_succ (a : Nat) (l : List Nat) (i : Nat) :
    getB (a :: l) (i + 1) = getB l i := rfl

theorem mesh_lor_short : ∀ m, m < 16 →
    Nat.lor (Nat.lor (Nat.lor 2 (m <<< 4)) 2) 2 = 16 * m + 2 := by decide

theorem mesh_lor_ext : ∀ m, m < 16 → Nat.lor 2 (m <<< 4) = 16 * m + 2 := by
  decide

theorem mesh_land2 : ∀ m, m < 16 → Nat.land (16 * m + 2) 2 = 2 := by decide

theorem mesh_land4 : ∀ m, m < 16 → Nat.land (16 * m + 2) 4 = 0 := by decide

theorem mesh_hops : ∀ m, m < 16 →
    Nat.land ((16 * m + 2) >>> 4) 15 = m := by decide

theorem land15_lt : ∀ x, x < 256 → Nat.land x 15 < 16 := by decide

theorem land15_eq_iff : ∀ x, x < 256 → (Nat.land x 15 = x ↔ x < 16) := by
  decide

theorem mesh_encode_short_eval (hops p s : Nat) (fin : Address) :
    MeshHeader.encode ⟨hops, .short p s, fin⟩ zeros17 =
      some ([Nat.lor (Nat.lor (Nat.lor 2 (Nat.land hops 15 <<< 4)) 2) 2,
        s % 256, s / 256 % 256, s % 256, s / 256 % 256,
        0, 0, 0, 0, 0, 0, 0, 0, 0, 0, 0, 0], 5) := rfl

set_option maxHeartbeats 1600000 in
theorem mesh_encode_ext_eval (hops p e : Nat) (fin : Address) :
    MeshHeader.encode ⟨hops, .extended p e, fin⟩ zeros17 =
      some ([Nat.lor 2 (Nat.land hops 15 <<< 4),
        e % 256, e / 256 % 256, e / 256 ^ 2 % 256, e / 256 ^ 3 % 256,
        e / 256 ^ 4 % 256, e / 256 ^ 5 % 256, e / 256 ^ 6 % 256,
        e / 256 ^ 7 % 256,
        e % 256, e / 256 % 256, e / 256 ^ 2 % 256, e / 256 ^ 3 % 256,
        e / 256 ^ 4 % 256, e / 256 ^ 5 % 256, e / 256 ^ 6 % 256,
        e / 256 ^ 7 % 256], 17) := rfl

theorem mesh_decode_eval (m : Nat) (hm : m < 16)
    (a1 a2 a3 a4 a5 a6 a7 a8 b1 b2 b3 b4 b5 b6 b7 b8 : Nat) :
    MeshHeader.decode
        [16 * m + 2, a1, a2, a3, a4, a5, a6, a7, a8,
          b1, b2, b3, b4, b5, b6, b7, b8] =
      some (⟨m, .short 0 (a1 + 256 * a2),
        .extended 0 (a3 + 256 * a4 + 256 ^ 2 * a5 + 256 ^ 3 * a6 +
          256 ^ 4 * a7 + 256 ^ 5 * a8 + 256 ^ 6 * b1 + 256 ^ 7 * b2)⟩,
        11) := by
  have h2 := mesh_land2 m hm
  have h4 := mesh_land4 m hm
  have hh := mesh_hops m hm
  simp only [MeshHeader.decode, getB_cons_zero, getB_cons_succ, readU16LE,
    readU64LE, h2, h4, hh, List.length_cons, List.length_nil]
  norm_num

/-- C9 counterexample: for the mesh header with `origin = Short(0, 258)` and
`final = Extended(0, 258)` the decode of the encode succeeds and returns the
header unchanged, even though its final address differs from its origin and
its origin is a short address — refuting the claim that the round trip fails
for every such header.  (The duplicated origin bytes plus the zeroed tail
reassemble to exactly this extended final address.) -/
theorem C9_mesh_roundtrip_degenerate :
    meshRT ⟨1, .short 0 258, .extended 0 258⟩ =
        some (⟨1, .short 0 258, .extended 0 258⟩, 11) ∧
      (Address.extended 0 258 : Address) ≠ .short 0 258 ∧
      (⟨1, .short 0 258, .extended 0 258⟩ : MeshHeader).origin_addr =
        .short 0 258 := by
  decide

/-- C9 (amended): `MeshHeader::encode` writes the origin address into both
address positions (the output is 1 + 2·len(origin) bytes) and never sets the
F (final-short) bit.  Because the `HeaderType::Mesh` bit coincides with the V
bit, `decode` always reads the origin as a short address, so
`decode(encode(h)) = h` exactly when `origin = Short(PanId 0, s)`,
`final = Extended(PanId 0, s)` for the same value `s`, and `hops_left < 16`;
it fails for every other header — in particular for every extended origin and
whenever the final address is not the extended reassembly of the duplicated
origin bytes. -/
theorem C9_mesh_encode_decode_characterisation (h : MeshHeader) (hwf : h.wf) :
    (MeshHeader.encode h zeros17).map
        (fun r => (Nat.land (getB r.1 0) 4, r.2)) =
      some (0, 1 + 2 * h.origin_addr.encLen) ∧
    ((meshRT h).map Prod.fst = some h ↔ meshDegenerate h) := by
  obtain ⟨hops, orig, fin⟩ := h
  obtain ⟨hne, hh256, hwo, _hwf⟩ := hwf
  have hh256n : hops < 256 := hh256
  have hm : Nat.land hops 15 < 16 := land15_lt hops hh256n
  cases orig with
  | none => exact absurd rfl hne
  | short p s =>
    obtain ⟨hp, hs⟩ := hwo
    have hs2 : s < 65536 := hs
    have hv : s % 256 + 256 * (s / 256 % 256) = s := by omega
    have hv2 : s % 256 + 256 * (s / 256 % 256) + 256 ^ 2 * 0 + 256 ^ 3 * 0 +
        256 ^ 4 * 0 + 256 ^ 5 * 0 + 256 ^ 6 * 0 + 256 ^ 7 * 0 = s := by
      omega
    constructor
    · rw [mesh_encode_short_eval, Option.map_some']
      show some (Nat.land (Nat.lor (Nat.lor (Nat.lor 2
          (Nat.land hops 15 <<< 4)) 2) 2) 4, 5) = some (0, 1 + 2 * 2)
      rw [mesh_lor_short _ hm, mesh_land4 _ hm]
    · rw [meshRT_eq _ _ _ (mesh_encode_short_eval hops p s fin),
        mesh_lor_short _ hm, mesh_decode_eval _ hm, hv2, hv,
        Option.map_some', Option.some_inj, MeshHeader.mk.injEq]
      cases p with
      | zero =>
        rw [meshDegenerate_short_zero]
        constructor
        · rintro ⟨h1, -, h3⟩
          exact ⟨h3.symm, (land15_eq_iff hops hh256n).1 h1⟩
        · rintro ⟨h1, h2⟩
          exact ⟨(land15_eq_iff hops hh256n).2 h2, rfl, h1.symm⟩
      | succ q =>
        rw [meshDegenerate_short_succ]
        constructor
        · rintro ⟨-, h2, -⟩
          injection h2 with h2a h2b
          omega
        · intro hf
          exact hf.elim
  | extended p e =>
    constructor
    · rw [mesh_encode_ext_eval, Option.map_some']
      show some (Nat.land (Nat.lor 2 (Nat.land hops 15 <<< 4)) 4, 17) =
        some (0, 1 + 2 * 8)
      rw [mesh_lor_ext _ hm, mesh_land4 _ hm]
    · rw [meshRT_eq _ _ _ (mesh_encode_ext_eval hops p e fin),
        mesh_lor_ext _ hm, mesh_decode_eval _ hm, Option.map_some',
        Option.some_inj, MeshHeader.mk.injEq, meshDegenerate_ext]
      constructor
      · rintro ⟨-, h2, -⟩
        exact Address.noConfusion h2
      · intro hf
        exact hf.elim

/-- C9 witness: the characterisation applied at the degenerate header
`{hops 1, origin Short(0, 258), final Extended(0, 258)}`. -/
theorem C9_mesh_characterisation_witness :
    MeshHeader.wf ⟨1, .short 0 258, .extended 0 258⟩ ∧
      ((MeshHeader.encode ⟨1, .short 0 258, .extended 0 258⟩ zeros17).map
          (fun r => (Nat.land (getB r.1 0) 4, r.2)) =
        some (0, 1 + 2 *
          (Address.short 0 258 : Address).encLen) ∧
      ((meshRT ⟨1, .short 0 258, .extended 0 258⟩).map Prod.fst =
          some ⟨1, .short 0 258, .extended 0 258⟩ ↔
        meshDegenerate ⟨1, .short 0 258, .extended 0 258⟩)) :=
  ⟨by decide,
    C9_mesh_encode_decode_characterisation ⟨1, .short 0 258, .extended 0 258⟩
      (by decide)⟩

/-! ## Fragmentation manager (src/sixlo/frag.rs) -/

/-- `Hc1Header` (src/sixlo/headers.rs:268-327): HC1 flags byte and hop
limit. -/
structure Hc1Header where
  flags : Nat
  hop_limit : Nat
deriving DecidableEq, Repr

/-- `BroadcastHeader` (src/sixlo/headers.rs:426-430): currently empty. -/
structure BroadcastHeader where
deriving DecidableEq, Repr

/-- 6LoWPAN `Header` (src/sixlo/headers.rs:13-31): optional HC1, mesh,
broadcast and fragmentation sub-headers; `Default` is all `None`. -/
structure Header where
  hc1 : Option Hc1Header := none
  mesh : Option MeshHeader := none
  bcast : Option BroadcastHeader := none
  frag : Option FragHeader := none
deriving DecidableEq, Repr

/-- `IPV6_MTU` (src/sixlo/mod.rs:24). -/
def IPV6_MTU : Nat := 1280

/-- `FragState` (src/sixlo/frag.rs:23-29). -/
inductive FragState where
  | none
  | tx
  | rx
  | done
deriving DecidableEq, Repr

/-- `FragBuffer<[u8; IPV6_MTU], MAX_FRAG>` (src/sixlo/frag.rs:273-285). -/
structure FragBuffer where
  state : FragState
  header : Header
  addr : Address
  tag : Nat
  len : Nat
  mask : Nat
  timeout : Nat
  offset : Nat
  buff : List Nat
deriving DecidableEq, Repr

/-- `FragBuffer::default` (src/sixlo/frag.rs:288-302): free slot with a
zeroed `[u8; IPV6_MTU]` backing buffer (`B::empty`). -/
def FragBuffer.default : FragBuffer :=
  ⟨.none, {}, .none, 0, 0, 0, 0, 0, List.replicate IPV6_MTU 0⟩

/-- `<[u8; N] as FragData>::from_bytes` (src/sixlo/frag.rs:252-259): copy
`data` into the front of a zeroed `IPV6_MTU`-byte array (panics in Rust if
`data` is longer than the array; callers pass at most `IPV6_MTU` bytes). -/
def fragDataFromBytes (data : List Nat) : List Nat :=
  data ++ List.replicate (IPV6_MTU - data.length) 0

/-- `FragBuffer::init_tx` (src/sixlo/frag.rs:332-351): transmit slot holding
the whole datagram; the stored header's `frag` field is cleared. -/
def FragBuffer.init_tx (dest : Address) (header : Header) (tag : Nat)
    (data : List Nat) : FragBuffer :=
  let s : FragBuffer := { FragBuffer.default with
    state := .tx, header := header, addr := dest, len := data.length,
    tag := tag, buff := fragDataFromBytes data }
  { s with header := { s.header with frag := none } }

/-- `FragBuffer::num_frags` (src/sixlo/frag.rs:374-381). -/
def FragBuffer.num_frags (M : Nat) (b : FragBuffer) : Nat :=
  let n := b.len / M
  if b.len % M ≠ 0 then n + 1 else n

/-- `FragBuffer::frag` (src/sixlo/frag.rs:433-469): header, data offset and
length for the fragment at `index`.  Index 0 carries the stored header plus a
`Frag1` sub-header; later indices carry only a `FragN` sub-header with the
8-octet offset (`(o / 8) as u8`).  The length is `MAX_FRAG.min(len - offset)`
(Rust usize subtraction; callers keep `offset ≤ len`). -/
def FragBuffer.frag (M : Nat) (b : FragBuffer) (index : Nat) :
    Header × Nat × Nat :=
  let ho : Header × Nat :=
    match index with
    | 0 => ({ b.header with
        frag := some ⟨b.len % 65536, b.tag, none⟩ }, 0)
    | _ =>
      let o := index * M
      ({ (({} : Header)) with
        frag := some ⟨b.len % 65536, b.tag, some (o / 8 % 256)⟩ }, o)
  let remainder := b.len - ho.2
  (ho.1, ho.2, min M remainder)

/-- `<FragBuffer as Iterator>::next` (src/sixlo/frag.rs:482-505): `None`
unless the slot is in `Tx`; otherwise emit the fragment at `offset / MAX_FRAG`,
advance `offset` by `MAX_FRAG`, and free the slot (`state = None`) once
`offset > len`. -/
def FragBuffer.next (M : Nat) (b : FragBuffer) :
    Option (Header × Nat × Nat) × FragBuffer :=
  if b.state ≠ .tx then (none, b)
  else
    let r := b.frag M (b.offset / M)
    let b2 := { b with offset := b.offset + M }
    let b3 := if b2.offset > b2.len then { b2 with state := .none } else b2
    (some r, b3)

/-- `FragBuffer::frag_data` (src/sixlo/frag.rs:472-474): the slice
`buff[offset..offset+len]`. -/
def FragBuffer.frag_data (b : FragBuffer) (o l : Nat) : List Nat :=
  (b.buff.drop o).take l

/-- `SixLoError` variants used by the fragmentation manager
(src/sixlo/mod.rs). -/
inductive SixLoError where
  | noTxFragSlots
deriving DecidableEq, Repr

/-- `FragConfig` (src/sixlo/frag.rs:45-58) with its `Default` values. -/
structure FragConfig where
  frag_rx_timeout_ms : Nat := 10000
  frag_tx_timeout_ms : Nat := 10000
deriving DecidableEq, Repr

/-- `Frag<MAX_FRAG_SIZE>` (src/sixlo/frag.rs:36-43): tag counter plus four
fragmentation slots (`[FragBuffer; 4]`, modelled as a 4-element list). -/
structure Frag where
  config : FragConfig
  tag : Nat
  buffs : List FragBuffer
deriving DecidableEq, Repr

/-- `Frag::new` (src/sixlo/frag.rs:62-68): tag 0, four free slots. -/
def Frag.new (config : FragConfig) : Frag :=
  ⟨config, 0, [.default, .default, .default, .default]⟩

/-- Replace the first slot with `state == FragState::None` (the
`iter_mut().find(...)` in `Frag::transmit`). -/
def replaceFirstFree (buffs : List FragBuffer) (nb : FragBuffer) :
    Option (List FragBuffer) :=
  match buffs with
  | [] => none
  | b :: rest =>
    if b.state = .none then some (nb :: rest)
    else (replaceFirstFree rest nb).map (b :: ·)

/-- `Frag::transmit` (src/sixlo/frag.rs:71-89): initialise a free slot for
transmission with the current tag and `timeout = now + frag_tx_timeout_ms`,
then advance the tag counter (`wrapping_add` on u16); `NoTxFragSlots` when
all four slots are busy. -/
def Frag.transmit (f : Frag) (now_ms : Nat) (dest : Address) (hdr : Header)
    (d : List Nat) : Except SixLoError Frag :=
  let nb := FragBuffer.init_tx dest hdr f.tag d
  let nb := { nb with timeout := now_ms + f.config.frag_tx_timeout_ms }
  match replaceFirstFree f.buffs nb with
  | some buffs => .ok { f with buffs := buffs, tag := (f.tag + 1) % 65536 }
  | none => .error .noTxFragSlots

/-- `PollOptions` (src/sixlo/frag.rs:221-236) with its `Default` values. -/
structure PollOptions where
  can_tx : Bool := true
  tx_addr : Address := .none
deriving DecidableEq, Repr

/-- Timeout pass of `Frag::poll` (src/sixlo/frag.rs:176-188): free an
occupied slot whose `timeout ≠ 0` has passed. -/
def expireSlot (now_ms : Nat) (b : FragBuffer) : FragBuffer :=
  if b.state ≠ .none ∧ b.timeout ≠ 0 ∧ now_ms > b.timeout then
    { b with state := .none }
  else b

/-- TX pass of `Frag::poll` (src/sixlo/frag.rs:191-213): find the first `Tx`
slot passing the `can_tx` and destination filters and emit its next fragment
(`FragBuffer::next` plus `frag_data`); a slot whose iterator is exhausted is
skipped. -/
def pollTxList (M : Nat) (opts : PollOptions) :
    List FragBuffer → List FragBuffer × Option (Address × Header × List Nat)
  | [] => ([], none)
  | b :: rest =>
    if b.state = .tx ∧ opts.can_tx = true ∧
        (opts.tx_addr = .none ∨ opts.tx_addr = b.addr) then
      match FragBuffer.next M b with
      | (some (h, o, l), b2) =>
        (b2 :: rest, some (b2.addr, h, b2.frag_data o l))
      | (none, b2) =>
        let r := pollTxList M opts rest
        (b2 :: r.1, r.2)
    else
      let r := pollTxList M opts rest
      (b :: r.1, r.2)

/-- `Frag::poll` (src/sixlo/frag.rs:173-216): expire timed-out slots, then
emit the next fragment of the first matching `Tx` slot. -/
def Frag.poll (M : Nat) (f : Frag) (now_ms : Nat) (opts : PollOptions) :
    Frag × Option (Address × Header × List Nat) :=
  let buffs := f.buffs.map (expireSlot now_ms)
  let r := pollTxList M opts buffs
  ({ f with buffs := r.1 }, r.2)

/-- Manager state after `k` polls. -/
def Frag.pollN (M : Nat) (f : Frag) (now_ms : Nat) (opts : PollOptions) :
    Nat → Frag
  | 0 => f
  | k + 1 => (Frag.poll M (Frag.pollN M f now_ms opts k) now_ms opts).1

/-- First fragmentation slot of a manager. -/
def Frag.slot0 (f : Frag) : FragBuffer := f.buffs.getD 0 .default

/-- The slot created by `Frag::transmit` at time 0 on a fresh manager
(tag 0, `timeout = 0 + frag_tx_timeout_ms`). -/
def txSlot (cfg : FragConfig) (dest : Address) (hdr : Header)
    (data : List Nat) : FragBuffer :=
  { FragBuffer.init_tx dest hdr 0 data with
    timeout := 0 + cfg.frag_tx_timeout_ms }

/-- Manager state right after `Frag::transmit` at time 0 on a fresh manager. -/
def txManager (cfg : FragConfig) (dest : Address) (hdr : Header)
    (data : List Nat) : Frag :=
  ⟨cfg, 1, [txSlot cfg dest hdr data, .default, .default, .default]⟩

theorem expireSlot_zero (b : FragBuffer) : expireSlot 0 b = b := by
  unfold expireSlot
  rw [if_neg]
  rintro ⟨-, -, h⟩
  exact Nat.not_lt_zero _ h

theorem transmit_new_eval (cfg : FragConfig) (dest : Address) (hdr : Header)
    (data : List Nat) :
    Frag.transmit (Frag.new cfg) 0 dest hdr data =
      .ok (txManager cfg dest hdr data) := rfl

theorem next_tx_cont (M : Nat) (b : FragBuffer) (hb : b.state = .tx)
    (hlen : ¬b.len < b.offset + M) :
    FragBuffer.next M b =
      (some (b.frag M (b.offset / M)), { b with offset := b.offset + M }) := by
  unfold FragBuffer.next
  rw [if_neg (fun hc => hc hb)]
  dsimp only
  rw [if_neg hlen]

theorem next_tx_fin (M : Nat) (b : FragBuffer) (hb : b.state = .tx)
    (hlen : b.len < b.offset + M) :
    FragBuffer.next M b =
      (some (b.frag M (b.offset / M)),
        { b with offset := b.offset + M, state := .none }) := by
  unfold FragBuffer.next
  rw [if_neg (fun hc => hc hb)]
  dsimp only
  rw [if_pos hlen]

theorem pollTxList_nil (M : Nat) (opts : PollOptions) :
    pollTxList M opts [] = ([], none) := rfl

theorem pollTxList_cons_tx (M : Nat) (b : FragBuffer)
    (rest : List FragBuffer) (hb : b.state = .tx) :
    pollTxList M {} (b :: rest) =
      ((FragBuffer.next M b).2 :: rest,
        some ((FragBuffer.next M b).2.addr, (b.frag M (b.offset / M)).1,
          (FragBuffer.next M b).2.frag_data (b.frag M (b.offset / M)).2.1
            (b.frag M (b.offset / M)).2.2)) := by
  unfold pollTxList
  rw [if_pos ⟨hb, rfl, Or.inl rfl⟩]
  rw [FragBuffer.next]
  rw [if_neg (fun hc => hc hb)]

theorem pollTxList_cons_skip (M : Nat) (opts : PollOptions) (b : FragBuffer)
    (rest : List FragBuffer) (hb : ¬b.state = .tx) :
    pollTxList M opts (b :: rest) =
      (b :: (pollTxList M opts rest).1, (pollTxList M opts rest).2) := by
  conv_lhs => rw [pollTxList]
  rw [if_neg (fun hc => hb hc.1)]

theorem poll_step (M : Nat) (cfg : FragConfig) (t : Nat) (b : FragBuffer)
    (hb : b.state = .tx) :
    Frag.poll M ⟨cfg, t, [b, .default, .default, .default]⟩ 0 {} =
      (⟨cfg, t, [(FragBuffer.next M b).2, .default, .default, .default]⟩,
        some ((FragBuffer.next M b).2.addr, (b.frag M (b.offset / M)).1,
          (FragBuffer.next M b).2.frag_data (b.frag M (b.offset / M)).2.1
            (b.frag M (b.offset / M)).2.2)) := by
  unfold Frag.poll
  simp only [List.map_cons, List.map_nil, expireSlot_zero]
  rw [pollTxList_cons_tx M b _ hb]

theorem poll_step_none (M : Nat) (cfg : FragConfig) (t : Nat)
    (b : FragBuffer) (hb : b.state = .none) :
    Frag.poll M ⟨cfg, t, [b, .default, .default, .default]⟩ 0 {} =
      (⟨cfg, t, [b, .default, .default, .default]⟩, none) := by
  unfold Frag.poll
  simp only [List.map_cons, List.map_nil, expireSlot_zero]
  rw [pollTxList_cons_skip M {} b _ (by rw [hb]; intro h; cases h),
    pollTxList_cons_skip M {} _ _ (by intro h; cases h),
    pollTxList_cons_skip M {} _ _ (by intro h; cases h),
    pollTxList_cons_skip M {} _ _ (by intro h; cases h),
    pollTxList_nil]

theorem frag_offset_len (M : Nat) (b : FragBuffer) (k : Nat) :
    (b.frag M k).2.1 = k * M ∧ (b.frag M k).2.2 = min M (b.len - k * M) := by
  cases k with
  | zero =>
    refine ⟨?_, ?_⟩
    · show (0 : Nat) = 0 * M
      rw [Nat.zero_mul]
    · show min M (b.len - 0) = min M (b.len - 0 * M)
      rw [Nat.zero_mul]
  | succ k => exact ⟨rfl, rfl⟩

theorem next_addr (M : Nat) (b : FragBuffer) :
    (FragBuffer.next M b).2.addr = b.addr := by
  unfold FragBuffer.next
  by_cases hb : b.state ≠ .tx
  · rw [if_pos hb]
  · rw [if_neg hb]
    dsimp only
    by_cases hc : b.offset + M > b.len
    · rw [if_pos hc]
    · rw [if_neg hc]

theorem next_buff (M : Nat) (b : FragBuffer) :
    (FragBuffer.next M b).2.buff = b.buff := by
  unfold FragBuffer.next
  by_cases hb : b.state ≠ .tx
  · rw [if_pos hb]
  · rw [if_neg hb]
    dsimp only
    by_cases hc : b.offset + M > b.len
    · rw [if_pos hc]
    · rw [if_neg hc]

theorem fragDataFromBytes_length (data : List Nat)
    (hmtu : data.length ≤ IPV6_MTU) :
    (fragDataFromBytes data).length = IPV6_MTU := by
  unfold fragDataFromBytes
  rw [List.length_append, List.length_replicate]
  omega

theorem C2_pollN_eval (M : Nat) (cfg : FragConfig) (dest : Address)
    (hdr : Header) (data : List Nat) (k : Nat) (hk : k ≤ data.length / M) :
    Frag.pollN M (txManager cfg dest hdr data) 0 {} k =
      ⟨cfg, 1, [{ txSlot cfg dest hdr data with offset := k * M },
        .default, .default, .default]⟩ := by
  induction k with
  | zero =>
    rw [Nat.zero_mul]
    rfl
  | succ k ih =>
    have hk2 : k ≤ data.length / M := Nat.le_of_succ_le hk
    have hle : k * M + M ≤ data.length := by
      have h1 : (k + 1) * M ≤ data.length / M * M :=
        Nat.mul_le_mul_right M hk
      have h2 : data.length / M * M ≤ data.length := Nat.div_mul_le_self _ _
      calc k * M + M = (k + 1) * M := by ring
        _ ≤ data.length := le_trans h1 h2
    simp only [Frag.pollN]
    rw [ih hk2, poll_step M cfg 1 _ rfl,
      next_tx_cont M _ rfl (by exact Nat.not_lt.mpr hle)]
    rw [show (k + 1) * M = k * M + M from Nat.succ_mul k M]

theorem C2_pollN_final (M : Nat) (hM : 0 < M) (cfg : FragConfig)
    (dest : Address) (hdr : Header) (data : List Nat) :
    Frag.pollN M (txManager cfg dest hdr data) 0 {} (data.length / M + 1) =
      ⟨cfg, 1, [{ txSlot cfg dest hdr data with
        offset := data.length / M * M + M, state := .none },
        .default, .default, .default]⟩ := by
  have hfin : data.length < data.length / M * M + M := by
    have h1 : data.length = M * (data.length / M) + data.length % M :=
      (Nat.div_add_mod _ _).symm
    have h2 : data.length % M < M := Nat.mod_lt _ hM
    have h3 : M * (data.length / M) = data.length / M * M := Nat.mul_comm _ _
    omega
  simp only [Frag.pollN]
  rw [C2_pollN_eval M cfg dest hdr data _ (le_refl _),
    poll_step M cfg 1 _ rfl, next_tx_fin M _ rfl (by exact hfin)]

theorem poll_step_emit (M : Nat) (hM : 0 < M) (cfg : FragConfig)
    (dest : Address) (hdr : Header) (data : List Nat) (k : Nat)
    (hk : k * M ≤ data.length) (hmtu : data.length ≤ IPV6_MTU) :
    (Frag.poll M ⟨cfg, 1, [{ txSlot cfg dest hdr data with offset := k * M },
        .default, .default, .default]⟩ 0 {}).2.map
      (fun r => (r.1, r.2.2.length)) =
      some (dest, min M (data.length - k * M)) := by
  rw [poll_step M cfg 1 _ rfl]
  simp only [Option.map_some']
  set b : FragBuffer := { txSlot cfg dest hdr data with offset := k * M }
    with hbdef
  have hidx : b.offset / M = k := by
    show k * M / M = k
    exact Nat.mul_div_cancel k hM
  rw [hidx]
  have hfr := frag_offset_len M b k
  rw [next_addr M b, hfr.1, hfr.2]
  have haddr2 : b.addr = dest := rfl
  rw [haddr2]
  show some (dest, (FragBuffer.frag_data _ _ _).length) = _
  unfold FragBuffer.frag_data
  rw [next_buff M b]
  have hbuff2 : b.buff = fragDataFromBytes data := rfl
  rw [hbuff2, List.length_take, List.length_drop,
    fragDataFromBytes_length data hmtu]
  have hlen2 : b.len = data.length := rfl
  rw [hlen2]
  have hmtu2 : data.length ≤ 1280 := hmtu
  have hmin : min M (data.length - k * M) ≤ IPV6_MTU - k * M :=
    le_trans (min_le_right _ _) (by show _ ≤ 1280 - k * M; omega)
  rw [min_eq_left hmin]

/-- C2 counterexample: with `MAX_FRAG_SIZE = 64` and a 64-byte datagram
(`len` an exact multiple of `MAX_FRAG_SIZE`, `ceil(len / MAX_FRAG_SIZE) = 1`),
the first advancing poll does not free the Tx slot: it is freed only by a
second advancing poll, which emits a zero-length fragment. -/
theorem C2_exact_multiple_needs_extra_poll :
    (Frag.transmit (Frag.new {}) 0 (.short 0 1) {} (List.replicate 64 0)) =
        .ok (txManager {} (.short 0 1) {} (List.replicate 64 0)) ∧
      (Frag.poll 64 (txManager {} (.short 0 1) {} (List.replicate 64 0))
        0 {}).2.isSome = true ∧
      (Frag.slot0 (Frag.pollN 64
        (txManager {} (.short 0 1) {} (List.replicate 64 0)) 0 {} 1)).state =
        FragState.tx ∧
      (Frag.poll 64 (Frag.pollN 64
        (txManager {} (.short 0 1) {} (List.replicate 64 0)) 0 {} 1)
        0 {}).2.isSome = true ∧
      (Frag.slot0 (Frag.pollN 64
        (txManager {} (.short 0 1) {} (List.replicate 64 0)) 0 {} 2)).state =
        FragState.none :=
  ⟨rfl, rfl, rfl, rfl, rfl⟩

/-- C2 (amended): for a datagram of length `len > 0` handed to the
fragmentation manager, polls return fragments in offset order and the Tx slot
is freed after exactly `len / MAX_FRAG_SIZE + 1` advancing polls — that is
`ceil(len / MAX_FRAG_SIZE)` polls when `MAX_FRAG_SIZE` does not divide `len`,
and one more than that (the last advancing poll emitting a zero-length
fragment) when it does.  The `k`-th advancing poll (0-based) emits a fragment
of length `min(MAX_FRAG_SIZE, len − k·MAX_FRAG_SIZE)` addressed to `dest`,
and the slot is freed exactly when the advancing cursor satisfies
`offset > len`. -/
theorem C2_tx_slot_freed (M : Nat) (hM : 0 < M) (cfg : FragConfig)
    (dest : Address) (hdr : Header) (data : List Nat)
    (_hlen : 0 < data.length) (hmtu : data.length ≤ IPV6_MTU) :
    Frag.transmit (Frag.new cfg) 0 dest hdr data =
        .ok (txManager cfg dest hdr data) ∧
      (∀ k, k ≤ data.length / M →
        (Frag.slot0 (Frag.pollN M (txManager cfg dest hdr data) 0 {}
          k)).state = FragState.tx ∧
        (Frag.poll M (Frag.pollN M (txManager cfg dest hdr data) 0 {} k)
            0 {}).2.map (fun r => (r.1, r.2.2.length)) =
          some (dest, min M (data.length - k * M))) ∧
      (Frag.slot0 (Frag.pollN M (txManager cfg dest hdr data) 0 {}
        (data.length / M + 1))).state = FragState.none ∧
      (Frag.poll M (Frag.pollN M (txManager cfg dest hdr data) 0 {}
        (data.length / M + 1)) 0 {}).2 = none := by
  refine ⟨transmit_new_eval cfg dest hdr data, ?_, ?_, ?_⟩
  · intro k hk
    rw [C2_pollN_eval M cfg dest hdr data k hk]
    refine ⟨rfl, ?_⟩
    have hkM : k * M ≤ data.length := by
      have h1 : k * M ≤ data.length / M * M := Nat.mul_le_mul_right M hk
      have h2 : data.length / M * M ≤ data.length := Nat.div_mul_le_self _ _
      exact le_trans h1 h2
    exact poll_step_emit M hM cfg dest hdr data k hkM hmtu
  · rw [C2_pollN_final M hM cfg dest hdr data]
    rfl
  · rw [C2_pollN_final M hM cfg dest hdr data]
    exact congrArg Prod.snd (poll_step_none M cfg 1 _ rfl)

/-- C2 witness: the amended fragmentation schedule at `MAX_FRAG_SIZE = 64`
with a 64-byte datagram. -/
theorem C2_tx_slot_freed_witness :
    Frag.transmit (Frag.new {}) 0 (.short 0 1) {} (List.replicate 64 0) =
        .ok (txManager {} (.short 0 1) {} (List.replicate 64 0)) ∧
      (∀ k, k ≤ (List.replicate 64 (0 : Nat)).length / 64 →
        (Frag.slot0 (Frag.pollN 64
          (txManager {} (.short 0 1) {} (List.replicate 64 0)) 0 {}
          k)).state = FragState.tx ∧
        (Frag.poll 64 (Frag.pollN 64
            (txManager {} (.short 0 1) {} (List.replicate 64 0)) 0 {} k)
            0 {}).2.map (fun r => (r.1, r.2.2.length)) =
          some (Address.short 0 1,
            min 64 ((List.replicate 64 (0 : Nat)).length - k * 64))) ∧
      (Frag.slot0 (Frag.pollN 64
        (txManager {} (.short 0 1) {} (List.replicate 64 0)) 0 {}
        ((List.replicate 64 (0 : Nat)).length / 64 + 1))).state =
        FragState.none ∧
      (Frag.poll 64 (Frag.pollN 64
        (txManager {} (.short 0 1) {} (List.replicate 64 0)) 0 {}
        ((List.replicate 64 (0 : Nat)).length / 64 + 1)) 0 {}).2 = none :=
  C2_tx_slot_freed 64 (by decide) {} (.short 0 1) {} (List.replicate 64 0)
    (by decide) (by decide)

/-! ## 802.15.4 MAC engine (src/mac_802154/mod.rs, packet.rs, config.rs)

The radio base and the timer are external capabilities: radio hand-offs are
modelled as emitted packets, the RSSI reading and the RNG draw as oracle
inputs, and `now_ms` as an explicit argument. -/

/-- `ieee802154::mac::FrameType` (external crate). -/
inductive FrameType where
  | beacon
  | macCommand
  | data
  | acknowledgement
deriving DecidableEq, Repr

/-- `ieee802154::mac::command::AssociationStatus`; only `Successful` is
produced by this stack, all other statuses are grouped as `failure`. -/
inductive AssociationStatus where
  | successful
  | failure
deriving DecidableEq, Repr

/-- `ieee802154::mac::command::Command` variants handled by the MAC
(src/mac_802154/mod.rs:733-788); all others fall into `other`. -/
inductive Command where
  | assocReq
  | assocResp (short_addr : Nat) (status : AssociationStatus)
  | other
deriving DecidableEq, Repr

/-- `ieee802154::mac::FrameContent`. -/
inductive FrameContent where
  | beacon
  | command (c : Command)
  | data
  | ack
deriving DecidableEq, Repr

/-- `ieee802154::mac::Header` fields used by the MAC logic.  The constant
fields (`security = None`, `version = Ieee802154_2006`, `seq_no_suppress`,
`ie_present`) are omitted: every constructor in packet.rs sets them to the
same values and no MAC decision reads them. -/
structure FrameHeader where
  frame_type : FrameType
  frame_pending : Bool
  ack_request : Bool
  pan_id_compress : Bool
  destination : Address
  source : Address
  seq : Nat
deriving DecidableEq, Repr

/-- `Packet` (src/mac_802154/packet.rs:19-28): header, content, owned payload
(≤ 256 bytes) and the 2-byte footer. -/
structure Packet where
  header : FrameHeader
  content : FrameContent
  payload : List Nat
  footer : Nat × Nat
deriving DecidableEq, Repr

/-- `Packet::beacon` (src/mac_802154/packet.rs:40-59); the destination is
`Address::broadcast(&AddressMode::Short)` = `Short(0xFFFF, 0xFFFF)`.  The
`Beacon` content payload (superframe spec, GTS, pending addresses) is not
inspected by any MAC decision and is not modelled. -/
def Packet.beacon (source : Address) (seq : Nat) : Packet :=
  ⟨⟨.beacon, false, false, false, .short 0xFFFF 0xFFFF, source, seq⟩,
    .beacon, [], (0, 0)⟩

/-- `Packet::command` (src/mac_802154/packet.rs:61-80): `ack_request=true`. -/
def Packet.command (dest source : Address) (seq : Nat) (c : Command) :
    Packet :=
  ⟨⟨.macCommand, false, true, false, dest, source, seq⟩, .command c, [],
    (0, 0)⟩

/-- `Packet::data` (src/mac_802154/packet.rs:82-103).  The source copies the
payload with `Vec::from_slice(data).unwrap()`, which panics above 256 bytes;
callers keep payloads within the MTU. -/
def Packet.data (dest source : Address) (seq : Nat) (d : List Nat)
    (ack : Bool) : Packet :=
  ⟨⟨.data, false, ack, false, dest, source, seq⟩, .data, d, (0, 0)⟩

/-- `Packet::ack` (src/mac_802154/packet.rs:106-125): source and destination
swapped, sequence copied, `ack_request=false`, empty payload. -/
def Packet.ack (request : Packet) : Packet :=
  ⟨⟨.acknowledgement, false, false, false, request.header.source,
    request.header.destination, request.header.seq⟩, .ack, [], (0, 0)⟩

/-- `ieee802154::mac::Address::pan_id`. -/
def Address.pan_id : Address → Option Nat
  | .none => Option.none
  | .short p _ => some p
  | .extended p _ => some p

/-- `Packet::pan_id` (src/mac_802154/packet.rs:127-140): destination PAN if
addressed, else source PAN, else `0xFFFE`. -/
def Packet.pan_id (p : Packet) : Nat :=
  match p.header.destination with
  | .short pan _ => pan
  | .extended pan _ => pan
  | .none =>
    match p.header.source with
    | .short pan _ => pan
    | .extended pan _ => pan
    | .none => 0xFFFE

/-- `Packet::is_ack_for` (src/mac_802154/packet.rs:143-149). -/
def Packet.is_ack_for (p original : Packet) : Bool :=
  p.header.frame_type = FrameType.acknowledgement ∧
    p.header.source = original.header.destination ∧
    p.header.destination = original.header.source ∧
    p.header.seq = original.header.seq ∧
    p.content = FrameContent.ack

/-- `TxState` (src/mac_802154/mod.rs:78-91) with its `Default`. -/
structure TxState where
  pending : Bool := true
  retries : Nat := 0
deriving DecidableEq, Repr

/-- `RxInfo` (packet metadata handed to the upper layer). -/
structure RxInfo where
  source : Address
  rssi : Int
deriving DecidableEq, Repr

/-- `SyncState` (src/mac_802154/mod.rs:47-51). -/
inductive SyncState where
  | unsynced
  | synced (parent : Address)
deriving DecidableEq, Repr

/-- `AssocState` (src/mac_802154/mod.rs:62-67). -/
inductive AssocState where
  | unassociated
  | pending (parent : Address) (expiry : Nat)
  | associated (pan : Nat)
deriving DecidableEq, Repr

/-- `AssocState::is_associated` (src/mac_802154/mod.rs:69-76). -/
def AssocState.is_associated : AssocState → Bool
  | .associated _ => true
  | _ => false

/-- `CsmaState` (src/mac_802154/mod.rs:92-100). -/
inductive CsmaState where
  | none
  | pending (packet : Packet) (tx_slot : Nat) (retries : Nat)
deriving DecidableEq, Repr

/-- `AckState` (src/mac_802154/mod.rs:103-110). -/
inductive AckState where
  | none
  | pending (packet : Packet) (tx_time : Nat)
deriving DecidableEq, Repr

/-- `MacStats` (src/mac_802154/mod.rs:118-137). -/
structure MacStats where
  deadline_miss_tx : Nat := 0
  deadline_miss_ack : Nat := 0
  csma_cca_fail : Nat := 0
  tx_fail : Nat := 0
  sync_fail : Nat := 0
deriving DecidableEq, Repr

/-- `BeaconOrder` (ieee802154 crate): order 0..14 or on-demand (15). -/
inductive BeaconOrder where
  | beaconOrder (o : Nat)
  | onDemand
deriving DecidableEq, Repr

/-- `SuperframeOrder` (ieee802154 crate). -/
inductive SuperframeOrder where
  | superframeOrder (o : Nat)
  | inactive
deriving DecidableEq, Repr

/-- `Config` (src/mac_802154/config.rs:10-90) with its `Default` values. -/
structure Config where
  pan_coordinator : Bool := false
  pan_id : Nat := 0x0100
  base_superframe_duration : Nat := 1000
  base_slot_duration : Nat := 100
  mac_beacon_order : BeaconOrder := .beaconOrder 1
  mac_superframe_order : SuperframeOrder := .superframeOrder 0
  mac_deadline : Nat := 10
  max_beacon_misses : Nat := 10
  assoc_timeout : Nat := 10000
  battery_life_extension : Bool := true
  max_retries : Nat := 5
  ack_delay : Nat := 50
  min_be : Nat := 2
  max_be : Nat := 5
  csma_max_backoffs : Nat := 3
  channel_clear_threshold : Int := -50
deriving DecidableEq, Repr

/-- `Config::superframe_duration` (src/mac_802154/config.rs:93-100). -/
def Config.superframe_duration (c : Config) : Nat :=
  match c.mac_beacon_order with
  | .beaconOrder o => c.base_superframe_duration * 2 ^ o
  | _ => 0

/-- `Config::slots_per_slotframe` (src/mac_802154/config.rs:114-116). -/
def Config.slots_per_slotframe (c : Config) : Nat :=
  c.base_superframe_duration / c.base_slot_duration

/-- `Config::calculate_asn` (src/mac_802154/config.rs:122-124). -/
def Config.calculate_asn (c : Config) (now offset : Nat) : Nat :=
  (now + offset) / c.base_slot_duration

/-- `Config::calculate_rsn` (src/mac_802154/config.rs:126-129). -/
def Config.calculate_rsn (c : Config) (now offset : Nat) : Nat :=
  c.calculate_asn now offset % c.slots_per_slotframe

/-- Errors of the core error taxonomy (src/error.rs) relevant here. -/
inductive CoreError where
  | bufferFull
  | decodeError
  | busy
deriving DecidableEq, Repr

/-- Capacity of the bounded `heapless::spsc::Queue<_, U16>` RX/TX queues
(an external dependency; its `capacity()` returns the constant maximum
number of elements). -/
def queueCapacity : Nat := 16

/-- `heapless::spsc::Queue::capacity()` called on a queue value: a constant,
independent of how full the queue is. -/
def queueCapacityFn {α : Type} (_q : List α) : Nat := queueCapacity

/-- `heapless::spsc::Queue::enqueue`: append when below capacity, otherwise
fail leaving the queue unchanged (`none`). -/
def enqueue {α : Type} (q : List α) (x : α) : Option (List α) :=
  if q.length < queueCapacity then some (q ++ [x]) else none

/-- `Mac` state (src/mac_802154/mod.rs:139-164); the radio base and timer
capabilities are externalised. -/
structure Mac where
  address : Nat
  short_addr : Option Nat
  config : Config
  seq : Nat
  sync_offset : Nat
  last_asn : Nat
  next_beacon : Nat
  beacon_miss_count : Nat
  sync_state : SyncState
  assoc_state : AssocState
  csma_state : CsmaState
  ack_state : AckState
  stats : MacStats
  rx_buff : List (RxInfo × Packet)
  tx_buff : List (TxState × Packet)
deriving DecidableEq, Repr

/-- `Mac::addr` (src/mac_802154/mod.rs:394-400). -/
def Mac.addr (m : Mac) : Address :=
  match m.short_addr with
  | some s => .short m.config.pan_id s
  | none => .extended m.config.pan_id m.address

/-- `Mac::transmit` (src/mac_802154/mod.rs:234-244): build a Data frame with
the local address, the current sequence number (post-incremented, wrapping at
256), and enqueue it.  A failed enqueue (queue full) is only logged
(`error!`) — the function returns `Ok(())` in every case. -/
def Mac.transmit (m : Mac) (dest : Address) (d : List Nat) (ack : Bool) :
    Mac × Except CoreError Unit :=
  let packet := Packet.data dest m.addr m.seq d ack
  let m := { m with seq := (m.seq + 1) % 256 }
  let m :=
    match enqueue m.tx_buff (({} : TxState), packet) with
    | some q => { m with tx_buff := q }
    | none => m
  (m, .ok ())

/-- `Mac::receive` (src/mac_802154/mod.rs:247-260): dequeue the RX head and
copy its payload into the caller's buffer through the unguarded slice
`data[..payload.len()]`; `none` models the Rust panic when the buffer is
shorter than the payload.  The result carries the updated MAC, the updated
buffer and the returned value. -/
def Mac.receive (m : Mac) (d : List Nat) :
    Option (Mac × List Nat × Except CoreError (Option (Nat × RxInfo))) :=
  match m.rx_buff with
  | [] => some (m, d, .ok Option.none)
  | rx :: rest =>
    if d.length < rx.2.payload.length then Option.none
    else some ({ m with rx_buff := rest },
      rx.2.payload ++ d.drop rx.2.payload.length,
      .ok (some (rx.2.payload.length, rx.1)))

/-- `Mac::busy` (src/mac_802154/mod.rs:263-270): CSMA pending, or ACK
pending, or not associated, or `tx_buff.capacity() == 0` — note the last
test compares the queue's constant capacity, not its free space, with 0. -/
def Mac.busy (m : Mac) : Except CoreError Bool :=
  .ok (decide (m.csma_state ≠ .none) || decide (m.ack_state ≠ .none) ||
    !m.assoc_state.is_associated || decide (queueCapacityFn m.tx_buff = 0))

/-- ACK-transmission step of `Mac::tick` (src/mac_802154/mod.rs:308-326):
when `ack_state = Pending{packet, tx_time}` and `tx_time < now_ms`, count a
deadline miss if `now_ms > tx_time + mac_deadline`, hand the encoded packet
to the radio (modelled as the emitted packet; the byte encoding is the
ieee802154 crate codec) and clear `ack_state`. -/
def Mac.tickAck (m : Mac) (now_ms : Nat) : Mac × Option Packet :=
  match m.ack_state with
  | .pending packet tx_time =>
    if tx_time < now_ms then
      let m :=
        if now_ms > tx_time + m.config.mac_deadline then
          { m with stats := { m.stats with
            deadline_miss_ack := m.stats.deadline_miss_ack + 1 } }
        else m
      ({ m with ack_state := .none }, some packet)
    else (m, none)
  | .none => (m, none)

/-- The `iter_mut().find(..).map(|i| i.retries += 1)` in `tick_cap`
(src/mac_802154/mod.rs:540-542): bump the retry counter of the first TX entry
whose packet sequence number matches. -/
def bumpRetries : List (TxState × Packet) → Nat → List (TxState × Packet)
  | [], _ => []
  | (t, p) :: rest, s =>
    if p.header.seq = s then ({ t with retries := t.retries + 1 }, p) :: rest
    else (t, p) :: bumpRetries rest s

/-- Oracle inputs consumed by `tick_cap`: the `GlobalRng::get().next_u32()`
draw and the `base.rssi(now_ms)` reading. -/
structure CapOracle where
  rng : Nat
  rssi : Int
deriving DecidableEq, Repr

/-- `Mac::tick_cap` (src/mac_802154/mod.rs:496-610).  On a new ASN whose
`rsn == 0`: restart or start CSMA (backoff `rng % (2^be − 1) + 1` slots, with
`be = min(min_be + retries, max_be)` on a restart and
`be = (2.min(min_be) if battery_life_extension else min_be)` on a first
attempt); otherwise run the pending CSMA state machine (CCA below the target
slot, transmit at the slot, count a miss past it).  The emitted packet models
the radio hand-off. -/
def Mac.tick_cap (m : Mac) (now_ms asn : Nat) (o : CapOracle) :
    Mac × Option Packet :=
  let rsn := m.config.calculate_rsn now_ms m.sync_offset
  if asn ≠ m.last_asn ∧ rsn = 0 then
    match m.csma_state with
    | .pending packet tx_slot retries =>
      if retries ≥ m.config.csma_max_backoffs then
        ({ m with
          stats := { m.stats with
            csma_cca_fail := m.stats.csma_cca_fail + 1 },
          csma_state := .none,
          tx_buff := m.tx_buff.tail }, none)
      else if tx_slot = 0 then
        let be := min (m.config.min_be + retries) m.config.max_be
        let backoff := o.rng % (2 ^ be - 1) + 1
        ({ m with
          csma_state := .pending packet (asn + backoff) (retries + 1) }, none)
      else (m, none)
    | .none =>
      match m.tx_buff.head? with
      | some tx =>
        if tx.1.retries > m.config.max_retries then
          ({ m with
            stats := { m.stats with tx_fail := m.stats.tx_fail + 1 },
            tx_buff := m.tx_buff.tail }, none)
        else
          let m := { m with tx_buff := bumpRetries m.tx_buff tx.2.header.seq }
          let be := if m.config.battery_life_extension then
              min 2 m.config.min_be
            else m.config.min_be
          let backoff := o.rng % (2 ^ be - 1) + 1
          ({ m with csma_state := .pending tx.2 (asn + backoff) 0 }, none)
      | none => (m, none)
  else
    match m.csma_state with
    | .pending packet tx_slot retries =>
      if asn < tx_slot then
        if o.rssi > m.config.channel_clear_threshold then
          ({ m with csma_state := .pending packet 0 (retries + 1) }, none)
        else (m, none)
      else if asn = tx_slot then
        let m := { m with csma_state := .none }
        if !packet.header.ack_request then
          ({ m with tx_buff := m.tx_buff.tail }, some packet)
        else (m, some packet)
      else if tx_slot ≠ 0 ∧ asn > tx_slot then
        ({ m with
          stats := { m.stats with
            deadline_miss_tx := m.stats.deadline_miss_tx + 1 },
          csma_state := .pending packet 0 (retries + 1) }, none)
      else (m, none)
    | .none => (m, none)

/-- PAN filter of `Mac::handle_received` (src/mac_802154/mod.rs:624-634):
drop when the packet PAN is not broadcast and differs from the associated
PAN. -/
def Mac.panFilterDrop (m : Mac) (p : Packet) : Bool :=
  if p.pan_id ≠ 0xFFFF then
    match m.assoc_state with
    | .associated id => decide (p.pan_id ≠ id)
    | _ => false
  else false

/-- Address filter of `Mac::handle_received` (src/mac_802154/mod.rs:636-648):
accept the short broadcast address, our short address, or our extended
address. -/
def Mac.addrAccept (m : Mac) (p : Packet) : Bool :=
  match p.header.destination with
  | .short _ s =>
    if s = 0xFFFF then true
    else
      match m.short_addr with
      | some a => decide (s = a)
      | none => false
  | .extended _ e => decide (e = m.address)
  | .none => false

/-- `Mac::handle_received` (src/mac_802154/mod.rs:612-823) on an
already-decoded packet (`Packet::decode` of the raw radio bytes is the
ieee802154 crate codec; a decode failure returns before this logic).  The
filters drop silently; an accepted frame with `ack_request` arms the ACK
state; then the frame content is dispatched.  `none` models the
`pan_id().unwrap()` panic in the AssociationResponse branch. -/
def Mac.handle_received (m : Mac) (now : Nat) (p : Packet) (rssi : Int) :
    Option Mac :=
  if m.panFilterDrop p then some m
  else if !m.addrAccept p then some m
  else
    let m := if p.header.ack_request then
        { m with ack_state := .pending (Packet.ack p) (now + m.config.ack_delay) }
      else m
    match p.content with
    | .beacon =>
      if m.config.pan_coordinator then some m
      else if m.sync_state = .unsynced then
        some { m with
          sync_state := .synced p.header.source,
          sync_offset := now,
          next_beacon := now + m.config.superframe_duration,
          beacon_miss_count := 0 }
      else
        match m.sync_state with
        | .synced parent =>
          if p.header.source ≠ parent then some m
          else
            let delta : Int := ((now : Int) - (m.next_beacon : Int)).tmod
              (m.config.superframe_duration : Int)
            let m :=
              if delta.natAbs > m.config.superframe_duration / 10 then m
              else if delta < 0 then
                { m with sync_offset := m.sync_offset - delta.natAbs / 2 }
              else
                { m with sync_offset := m.sync_offset + delta.natAbs / 2 }
            some { m with
              next_beacon := now + m.config.superframe_duration,
              beacon_miss_count := 0 }
        | .unsynced => some m
    | .command c =>
      match c with
      | .assocReq =>
        let resp := Packet.command p.header.source m.addr m.seq
          (.assocResp 0xFFFE .successful)
        let m := { m with seq := (m.seq + 1) % 256 }
        let m :=
          match enqueue m.tx_buff (({} : TxState), resp) with
          | some q => { m with tx_buff := q }
          | none => m
        some m
      | .assocResp _ status =>
        match m.assoc_state with
        | .unassociated => some m
        | .associated _ => some m
        | .pending a _ =>
          if a ≠ p.header.source then some m
          else if status = .successful then
            match p.header.source.pan_id with
            | some pid => some { m with assoc_state := .associated pid }
            | Option.none => Option.none
          else some { m with assoc_state := .unassociated }
      | .other => some m
    | .ack =>
      match m.tx_buff.head? with
      | some (_, t) =>
        if p.is_ack_for t then some { m with tx_buff := m.tx_buff.tail }
        else some m
      | none => some m
    | .data =>
      match enqueue m.rx_buff ((⟨p.header.source, rssi⟩ : RxInfo), p) with
      | some q => some { m with rx_buff := q }
      | none => some m

/-! ## MAC fixtures and claim theorems -/

/-- A small concrete data packet. -/
def pkt0 : Packet := Packet.data (.short 256 2) (.extended 256 0xabcd) 0 []
  false

/-- A freshly constructed non-coordinator MAC (state as set up by `Mac::new`
with the default config, before any radio traffic; `sync_offset` taken as
0). -/
def macBase : Mac :=
  ⟨0xabcd, Option.none, {}, 0, 0, 0, 0, 0, .unsynced, .unassociated, .none,
    .none, {}, [], []⟩

/-- An associated MAC with a full TX queue (16 entries), no pending CSMA and
no pending ACK. -/
def macFull : Mac :=
  { macBase with
    assoc_state := .associated 256,
    tx_buff := List.replicate 16 ({}, pkt0) }

/-- C3 counterexample: with the TX queue full (16 entries), `Mac::transmit`
does not fail with a queue-full error — it returns `Ok(())` (the enqueue
failure is only logged), leaving the queue unchanged. -/
theorem C3_transmit_full_no_error :
    (Mac.transmit macFull (.short 256 3) [1, 2] true).2 = .ok () ∧
      (Mac.transmit macFull (.short 256 3) [1, 2] true).1.tx_buff =
        macFull.tx_buff :=
  ⟨rfl, rfl⟩

/-- C3 (amended): `Mac::transmit` always returns `Ok(())`.  When the TX queue
(capacity 16) has a free slot the wrapped Data frame is appended; when it is
full the packet is dropped with only an error log and the queue contents are
unchanged (the sequence counter is consumed either way). -/
theorem C3_transmit_behaviour (m : Mac) (dest : Address) (d : List Nat)
    (ack : Bool) (_hd : d.length ≤ 256) :
    (Mac.transmit m dest d ack).2 = .ok () ∧
      (Mac.transmit m dest d ack).1.tx_buff =
        (if m.tx_buff.length < queueCapacity then
          m.tx_buff ++ [(({} : TxState), Packet.data dest m.addr m.seq d ack)]
        else m.tx_buff) := by
  by_cases h : m.tx_buff.length < queueCapacity <;>
    simp [Mac.transmit, enqueue, h]

/-- C3 witness: transmit on a MAC with a free TX slot. -/
theorem C3_transmit_behaviour_witness :
    ([(1 : Nat), 2].length ≤ 256) ∧
      ((Mac.transmit macBase (.short 256 3) [1, 2] true).2 = .ok () ∧
        (Mac.transmit macBase (.short 256 3) [1, 2] true).1.tx_buff =
          (if macBase.tx_buff.length < queueCapacity then
            macBase.tx_buff ++ [(({} : TxState),
              Packet.data (.short 256 3) macBase.addr macBase.seq [1, 2]
                true)]
          else macBase.tx_buff)) :=
  ⟨by decide, C3_transmit_behaviour macBase (.short 256 3) [1, 2] true
    (by decide)⟩

/-- C4: for an associated MAC with no pending CSMA or ACK and a full TX
queue (16 entries), `Mac::busy` returns `false`: the queue-fullness test is
written `tx_buff.capacity() == 0`, and `capacity()` is the constant 16, so
that disjunct can never fire. -/
theorem C4_busy_ignores_full_tx_queue :
    Mac.busy macFull = .ok false ∧
      macFull.tx_buff.length = queueCapacity ∧
      macFull.assoc_state.is_associated = true ∧
      macFull.csma_state = .none ∧ macFull.ack_state = .none :=
  ⟨rfl, rfl, rfl, rfl, rfl⟩

/-- The backoff exponent used on the first CSMA attempt
(src/mac_802154/mod.rs:545-548): `2.min(min_be)` with battery-life extension,
else `min_be`. -/
def firstBe (c : Config) : Nat :=
  if c.battery_life_extension then min 2 c.min_be else c.min_be

/-- The backoff drawn on the first CSMA attempt
(src/mac_802154/mod.rs:550): `rng % (2^be − 1) + 1`. -/
def firstBackoff (c : Config) (rng : Nat) : Nat :=
  rng % (2 ^ firstBe c - 1) + 1

/-- A MAC with `min_be = 3` (battery-life extension on by default) and one
queued packet. -/
def mac6 : Mac :=
  { macBase with
    config := { min_be := 3 },
    tx_buff := [({}, pkt0)] }

/-- A MAC with the default config and one queued packet. -/
def macTx1 : Mac := { macBase with tx_buff := [({}, pkt0)] }

/-- C6 counterexample: with `min_be = 3` and battery-life extension enabled,
the code computes `be = 2.min(min_be) = 2` (not `max(min_be, 2) = 3`): for
the RNG draw 3 at ASN 10 the scheduled slot is `10 + (3 % (2^2 − 1) + 1)
= 11`, whereas the claimed formula gives `10 + (3 % (2^3 − 1) + 1) = 14`. -/
theorem C6_first_attempt_min_not_max :
    (Mac.tick_cap mac6 0 10 ⟨3, 0⟩).1.csma_state = .pending pkt0 11 0 ∧
      10 + (3 % (2 ^ max mac6.config.min_be 2 - 1) + 1) = 14 ∧
      (11 : Nat) ≠ 14 := by
  decide

/-- C6 (amended): on the first CSMA-CA attempt for a TX-queue head (new ASN,
`rsn == 0`, no pending CSMA, retries within bounds), the backoff exponent is
`be = 2.min(min_be)` when battery_life_extension is enabled and `min_be`
otherwise, the drawn backoff `rng % (2^be − 1) + 1` lies in `[1, 2^be − 1]`
slots, and the CSMA state becomes
`Pending{packet, tx_slot = asn + backoff, retries = 0}`. -/
theorem C6_csma_first_attempt (m : Mac) (now asn : Nat) (o : CapOracle)
    (ts : TxState) (pk : Packet) (rest : List (TxState × Packet))
    (hq : m.tx_buff = (ts, pk) :: rest)
    (hcs : m.csma_state = .none)
    (hasn : asn ≠ m.last_asn)
    (hrsn : m.config.calculate_rsn now m.sync_offset = 0)
    (hretry : ¬ts.retries > m.config.max_retries)
    (hbe : 1 ≤ firstBe m.config) :
    (Mac.tick_cap m now asn o).1.csma_state =
        .pending pk (asn + firstBackoff m.config o.rng) 0 ∧
      1 ≤ firstBackoff m.config o.rng ∧
      firstBackoff m.config o.rng ≤ 2 ^ firstBe m.config - 1 := by
  have hmod : 0 < 2 ^ firstBe m.config - 1 := by
    have h2 : (2 : Nat) ^ 1 ≤ 2 ^ firstBe m.config :=
      Nat.pow_le_pow_right (by omega) hbe
    omega
  refine ⟨?_, Nat.le_add_left 1 _, ?_⟩
  · unfold Mac.tick_cap
    rw [if_pos ⟨hasn, hrsn⟩, hcs]
    dsimp only
    rw [hq]
    dsimp only [List.head?]
    rw [if_neg hretry]
    rfl
  · have h3 := Nat.mod_lt o.rng hmod
    unfold firstBackoff at h3 ⊢
    omega

/-- C6 witness: the amended first-attempt schedule at the default config
(`min_be = 2`, battery-life extension on), RNG draw 5, ASN 10. -/
theorem C6_csma_first_attempt_witness :
    (Mac.tick_cap macTx1 0 10 ⟨5, 0⟩).1.csma_state =
        .pending pkt0 (10 + firstBackoff macTx1.config 5) 0 ∧
      1 ≤ firstBackoff macTx1.config 5 ∧
      firstBackoff macTx1.config 5 ≤ 2 ^ firstBe macTx1.config - 1 :=
  C6_csma_first_attempt macTx1 0 10 ⟨5, 0⟩
    {} pkt0 [] rfl rfl (by decide) (by decide) (by decide) (by decide)

/-- A MAC with an ACK armed for time 50. -/
def mac7 : Mac := { macBase with ack_state := .pending pkt0 50 }

/-- C7 counterexample: at the boundary `now_ms = tx_time` (both 50) the
pending ACK is not transmitted and `ack_state` stays `Pending` — the code
guard is the strict `tx_time < now_ms`, not `now_ms ≥ tx_time`. -/
theorem C7_ack_boundary_not_transmitted :
    (Mac.tickAck mac7 50).2 = none ∧
      (Mac.tickAck mac7 50).1.ack_state = .pending pkt0 50 :=
  ⟨rfl, rfl⟩

/-- C7 (amended): during a tick with `ack_state = Pending{pkt, tx_time}`, the
pending ACK is handed to the radio and `ack_state` cleared exactly when
`now_ms > tx_time` (strictly); for `now_ms ≤ tx_time` — including the
boundary `now_ms = tx_time` — the state is left `Pending` and nothing is
transmitted. -/
theorem C7_ack_tx_after_tx_time (m : Mac) (now : Nat) (pkt : Packet)
    (t : Nat) (hack : m.ack_state = .pending pkt t) :
    (t < now → (Mac.tickAck m now).2 = some pkt ∧
      (Mac.tickAck m now).1.ack_state = .none) ∧
    (¬t < now → Mac.tickAck m now = (m, none)) := by
  unfold Mac.tickAck
  rw [hack]
  dsimp only
  constructor
  · intro h
    rw [if_pos h]
    by_cases hd : now > t + m.config.mac_deadline
    · rw [if_pos hd]
      exact ⟨rfl, rfl⟩
    · rw [if_neg hd]
      exact ⟨rfl, rfl⟩
  · intro h
    rw [if_neg h]

/-- C7 witness: the ACK armed for 50 transmitted at 60, held at 50. -/
theorem C7_ack_tx_after_tx_time_witness :
    ((50 : Nat) < 60 → (Mac.tickAck mac7 60).2 = some pkt0 ∧
      (Mac.tickAck mac7 60).1.ack_state = .none) ∧
    (¬(50 : Nat) < 60 → Mac.tickAck mac7 60 = (mac7, none)) :=
  C7_ack_tx_after_tx_time mac7 60 pkt0 50 rfl

/-- C8: a non-coordinator MAC in `Unsynced` that accepts a beacon through the
PAN and address filters at time `now` adopts the source as sync parent:
`sync_state = Synced(source)`, `sync_offset = now`,
`next_beacon = now + superframe_duration`, and the beacon miss counter is
reset to zero. -/
theorem C8_beacon_sync_adopts (m : Mac) (now : Nat) (p : Packet)
    (rssi : Int)
    (hcoord : m.config.pan_coordinator = false)
    (hsync : m.sync_state = .unsynced)
    (hpan : m.panFilterDrop p = false)
    (haddr : m.addrAccept p = true)
    (hbeacon : p.content = .beacon) :
    ∃ m2, Mac.handle_received m now p rssi = some m2 ∧
      m2.sync_state = .synced p.header.source ∧ m2.sync_offset = now ∧
      m2.next_beacon = now + m.config.superframe_duration ∧
      m2.beacon_miss_count = 0 := by
  by_cases hreq : p.header.ack_request
  · have heq : Mac.handle_received m now p rssi = some
        { { m with ack_state :=
              .pending (Packet.ack p) (now + m.config.ack_delay) } with
          sync_state := .synced p.header.source, sync_offset := now,
          next_beacon := now + m.config.superframe_duration,
          beacon_miss_count := 0 } := by
      simp [Mac.handle_received, hpan, haddr, hbeacon, hcoord, hsync, hreq]
    exact ⟨_, heq, rfl, rfl, rfl, rfl⟩
  · have heq : Mac.handle_received m now p rssi = some
        { m with
          sync_state := .synced p.header.source, sync_offset := now,
          next_beacon := now + m.config.superframe_duration,
          beacon_miss_count := 0 } := by
      simp [Mac.handle_received, hpan, haddr, hbeacon, hcoord, hsync, hreq]
    exact ⟨_, heq, rfl, rfl, rfl, rfl⟩

/-- A beacon frame from an extended-address coordinator, as in the
`beacon_rx_sync` test (src/mac_802154/mod.rs:902-956). -/
def beaconPkt : Packet := Packet.beacon (.extended 256 0x1122) 0

/-- C8 witness: the fresh non-coordinator MAC receiving `beaconPkt` at
100 ms. -/
theorem C8_beacon_sync_adopts_witness :
    ∃ m2, Mac.handle_received macBase 100 beaconPkt (-40) = some m2 ∧
      m2.sync_state = .synced beaconPkt.header.source ∧
      m2.sync_offset = 100 ∧
      m2.next_beacon = 100 + macBase.config.superframe_duration ∧
      m2.beacon_miss_count = 0 :=
  C8_beacon_sync_adopts macBase 100 beaconPkt (-40) rfl rfl rfl rfl rfl

/-- C10: `Mac::receive` pops the RX-queue head and copies its payload through
the unguarded slice `data[..payload.len()]`: with the queue empty it returns
`Ok(None)` leaving the buffer unchanged; with a head payload that fits it
returns `Ok(Some(len, info))` after copying; with a head payload longer than
the caller's buffer the slice indexing panics (`none`). -/
theorem C10_receive_copy (m : Mac) (buf : List Nat) :
    (m.rx_buff = [] → Mac.receive m buf = some (m, buf, .ok Option.none)) ∧
    (∀ rx rest, m.rx_buff = rx :: rest →
      (rx.2.payload.length ≤ buf.length →
        Mac.receive m buf = some ({ m with rx_buff := rest },
          rx.2.payload ++ buf.drop rx.2.payload.length,
          .ok (some (rx.2.payload.length, rx.1)))) ∧
      (buf.length < rx.2.payload.length →
        Mac.receive m buf = Option.none)) := by
  constructor
  · intro h
    unfold Mac.receive
    rw [h]
  · intro rx rest h
    constructor
    · intro hle
      unfold Mac.receive
      rw [h]
      dsimp only
      rw [if_neg (Nat.not_lt.mpr hle)]
    · intro hlt
      unfold Mac.receive
      rw [h]
      dsimp only
      rw [if_pos hlt]

/-- A packet with a 3-byte payload queued for reception. -/
def rxPkt : Packet := Packet.data (.extended 256 0xabcd) (.short 256 2) 5
  [1, 2, 3] false

/-- A MAC with one received packet pending. -/
def macRx : Mac :=
  { macBase with rx_buff := [(⟨.short 256 2, -40⟩, rxPkt)] }

/-- C10 witness: empty queue leaves a buffer unchanged; a 3-byte payload into
a 2-byte buffer panics; into a 4-byte buffer it is copied. -/
theorem C10_receive_copy_witness :
    Mac.receive macBase [] = some (macBase, [], .ok Option.none) ∧
      Mac.receive macRx [0, 0] = Option.none ∧
      Mac.receive macRx [0, 0, 0, 0] = some ({ macRx with rx_buff := [] },
        [1, 2, 3, 0], .ok (some (3, ⟨.short 256 2, -40⟩))) := by
  refine ⟨(C10_receive_copy macBase []).1 rfl, ?_, ?_⟩
  · exact ((C10_receive_copy macRx [0, 0]).2 _ [] rfl).2 (by decide)
  · exact ((C10_receive_copy macRx [0, 0, 0, 0]).2 _ [] rfl).1 (by decide)

end Lpwan
